import Mathlib

/-!
Verification of the sparse voxel octree collider of the supersplat viewer.

The development shallowly embeds the collider code (`voxel-collider.ts`) and
the WGSL block-classification routine of the debug overlay
(`voxel-debug-overlay.ts`).  Machine 32-bit words are modelled as `Nat` with
explicit `% 2^32` where JavaScript applies `ToUint32`, and JavaScript shift
counts are reduced `% 32` as both JS and WGSL do.  Out-of-bounds typed-array
reads evaluate to `undefined`, which `>>> 0` turns into `0`; this is modelled
by `List.getD _ 0`.  Real (IEEE double) arithmetic is idealised as exact
rational arithmetic over `ℚ`; `Math.sqrt`, the single irrational operation,
is kept as an explicit function parameter `sqrt : ℚ → ℚ` so that every
definition stays computable.
-/

namespace SupersplatVoxel

/-- Solid leaf node marker: childMask = 0xFF, baseOffset = 0
(`SOLID_LEAF_MARKER` in the source). -/
def SOLID_LEAF_MARKER : Nat := 0xFF000000

/-- Minimum penetration depth to report a collision
(`PENETRATION_EPSILON = 1e-4` in the source, idealised as the exact rational). -/
def PENETRATION_EPSILON : ℚ := 1 / 10000

/-- Threshold below which the shape's defining point counts as lying inside the
voxel AABB (`1e-12` in the source, idealised as the exact rational). -/
def INSIDE_EPSILON : ℚ := 1 / 1000000000000

/-- Bit-twiddling popcount, translated from the source `popcount` function.
All intermediate values follow JavaScript number semantics: the inputs are
first coerced with `>>> 0` (here `% 2^32`) and the final
`(... * 0x01010101) >>> 24` applies `ToUint32` before the shift. -/
def popcount (n : Nat) : Nat :=
  let n0 := n % 4294967296
  let n1 := n0 - ((n0 >>> 1) &&& 0x55555555)
  let n2 := (n1 &&& 0x33333333) + ((n1 >>> 2) &&& 0x33333333)
  (((n2 + (n2 >>> 4)) &&& 0x0F0F0F0F) * 0x01010101) % 4294967296 >>> 24

/-- Fuel-bounded binary bit count; 32 fuel steps suffice for a `u32`. -/
def countOneBitsAux : Nat → Nat → Nat
  | 0, _ => 0
  | f + 1, n => if n = 0 then 0 else n % 2 + countOneBitsAux f (n / 2)

/-- Model of the WGSL builtin `countOneBits` on a 32-bit word. -/
def countOneBits (n : Nat) : Nat := countOneBitsAux 32 (n % 4294967296)

/-- Immutable grid data of a `VoxelCollider` (the fields set once by the
constructor and never written again). -/
structure Grid where
  gridMinX : ℚ
  gridMinY : ℚ
  gridMinZ : ℚ
  numVoxelsX : Int
  numVoxelsY : Int
  numVoxelsZ : Int
  voxelResolution : ℚ
  leafSize : Nat
  treeDepth : Nat
  nodes : List Nat
  leafData : List Nat
deriving DecidableEq

/-- Read one bit of the 64-bit per-voxel occupancy mask of a mixed leaf
(the body of `checkLeafByIndex` after extracting the leaf-data index). -/
def checkLeafBit (leafData : List Nat) (leafDataIndex : Nat) (ix iy iz : Nat) : Bool :=
  let vx := ix &&& 3
  let vy := iy &&& 3
  let vz := iz &&& 3
  let bitIndex := vz * 16 + vy * 4 + vx
  if bitIndex < 32 then
    ((leafData.getD (leafDataIndex * 2) 0 % 4294967296) >>> bitIndex) &&& 1 == 1
  else
    ((leafData.getD (leafDataIndex * 2 + 1) 0 % 4294967296) >>> (bitIndex - 32)) &&& 1 == 1

/-- Source `checkLeafByIndex`: the node word's low 24 bits index `leafData`. -/
def checkLeafByIndex (leafData : List Nat) (node : Nat) (ix iy iz : Nat) : Bool :=
  checkLeafBit leafData (node &&& 0xFFFFFF) ix iy iz

/-- State of the `for (level ...)` loop in `isVoxelSolid`: either an early
`return` with a boolean, or the running `nodeIndex`. -/
inductive LoopState where
  | ret (b : Bool)
  | go (nodeIndex : Nat)
deriving DecidableEq

/-- One iteration of the descent loop of `isVoxelSolid`, translated statement
by statement from the source; an early `return` is modelled by the absorbing
`LoopState.ret` state. -/
def loopBody (nodes leafData : List Nat) (ix iy iz bX bY bZ : Nat)
    (s : LoopState) (level : Nat) : LoopState :=
  match s with
  | .ret b => .ret b
  | .go nodeIndex =>
    let node := nodes.getD nodeIndex 0 % 4294967296
    if node = SOLID_LEAF_MARKER then .ret true
    else
      let childMask := (node >>> 24) &&& 0xFF
      if childMask = 0 then .ret (checkLeafByIndex leafData node ix iy iz)
      else
        let bitX := ((bX % 4294967296) >>> (level % 32)) &&& 1
        let bitY := ((bY % 4294967296) >>> (level % 32)) &&& 1
        let bitZ := ((bZ % 4294967296) >>> (level % 32)) &&& 1
        let octant := (bitZ <<< 2) ||| (bitY <<< 1) ||| bitX
        if childMask &&& (1 <<< octant) = 0 then .ret false
        else
          let baseOffset := node &&& 0xFFFFFF
          let pfx := (1 <<< octant) - 1
          .go (baseOffset + popcount (childMask &&& pfx))

/-- Leaf-level resolution performed after the loop of `isVoxelSolid` exits
normally ("We've reached the leaf level" in the source). -/
def leafResolve (nodes leafData : List Nat) (ix iy iz : Nat) (s : LoopState) : Bool :=
  match s with
  | .ret b => b
  | .go nodeIndex =>
    let node := nodes.getD nodeIndex 0 % 4294967296
    if node = SOLID_LEAF_MARKER then true
    else checkLeafByIndex leafData node ix iy iz

/-- Source `isVoxelSolid`: range guard, block coordinates, iterative descent
for `level = treeDepth-1` down to `0` (the loop is the left fold of
`loopBody` over `[treeDepth-1, ..., 0]`), then leaf-level resolution. -/
def isVoxelSolid (g : Grid) (ix iy iz : Int) : Bool :=
  if g.nodes.length = 0 ∨ ix < 0 ∨ iy < 0 ∨ iz < 0 ∨
      g.numVoxelsX ≤ ix ∨ g.numVoxelsY ≤ iy ∨ g.numVoxelsZ ≤ iz then
    false
  else
    let i := ix.toNat
    let j := iy.toNat
    let k := iz.toNat
    let bX := i / g.leafSize
    let bY := j / g.leafSize
    let bZ := k / g.leafSize
    leafResolve g.nodes g.leafData i j k
      (((List.range g.treeDepth).reverse).foldl
        (loopBody g.nodes g.leafData i j k bX bY bZ) (.go 0))

/-- Classification of one block by a root-to-leaf descent. -/
inductive BlockClass where
  | solid
  | empty
  | mixedLeaf (leafIndex : Nat)
deriving DecidableEq

/-- Reference recursive octree descent over the node array: at fuel `l + 1`
the current tree level is `l`; fuel `0` is the leaf-level resolution.  This is
the clean structural-recursion form of the source's iterative loop. -/
def descend (nodes : List Nat) (bX bY bZ : Nat) : Nat → Nat → BlockClass
  | 0, nodeIndex =>
    let node := nodes.getD nodeIndex 0 % 4294967296
    if node = SOLID_LEAF_MARKER then .solid
    else .mixedLeaf (node &&& 0xFFFFFF)
  | l + 1, nodeIndex =>
    let node := nodes.getD nodeIndex 0 % 4294967296
    if node = SOLID_LEAF_MARKER then .solid
    else
      let childMask := (node >>> 24) &&& 0xFF
      if childMask = 0 then .mixedLeaf (node &&& 0xFFFFFF)
      else
        let bitX := ((bX % 4294967296) >>> (l % 32)) &&& 1
        let bitY := ((bY % 4294967296) >>> (l % 32)) &&& 1
        let bitZ := ((bZ % 4294967296) >>> (l % 32)) &&& 1
        let octant := (bitZ <<< 2) ||| (bitY <<< 1) ||| bitX
        if childMask &&& (1 <<< octant) = 0 then .empty
        else
          let baseOffset := node &&& 0xFFFFFF
          let pfx := (1 <<< octant) - 1
          descend nodes bX bY bZ l (baseOffset + popcount (childMask &&& pfx))

/-- Turn a block classification into per-voxel solidity. -/
def classToBool (leafData : List Nat) (ix iy iz : Nat) : BlockClass → Bool
  | .solid => true
  | .empty => false
  | .mixedLeaf leafIndex => checkLeafBit leafData leafIndex ix iy iz

/-- Reference recursive octree lookup: same range guard and block-coordinate
computation as `isVoxelSolid`, but the descent is the structural recursion
`descend` instead of the imperative loop. -/
def octreeLookup (g : Grid) (ix iy iz : Int) : Bool :=
  if g.nodes.length = 0 ∨ ix < 0 ∨ iy < 0 ∨ iz < 0 ∨
      g.numVoxelsX ≤ ix ∨ g.numVoxelsY ≤ iy ∨ g.numVoxelsZ ≤ iz then
    false
  else
    let i := ix.toNat
    let j := iy.toNat
    let k := iz.toNat
    let bX := i / g.leafSize
    let bY := j / g.leafSize
    let bZ := k / g.leafSize
    classToBool g.leafData i j k (descend g.nodes bX bY bZ g.treeDepth 0)

/-- Folding the loop body from a `ret` state never changes the state. -/
lemma foldl_loopBody_ret (nodes leafData : List Nat) (ix iy iz bX bY bZ : Nat)
    (b : Bool) (l : List Nat) :
    l.foldl (loopBody nodes leafData ix iy iz bX bY bZ) (.ret b) = .ret b := by
  induction l with
  | nil => rfl
  | cons a t ih => simpa [loopBody] using ih

/-- Core equivalence behind C1: the imperative descent loop followed by
leaf-level resolution computes exactly the recursive `descend`, for every
start index and fuel. -/
lemma loop_eq_descend (nodes leafData : List Nat) (ix iy iz bX bY bZ : Nat) :
    ∀ (fuel nodeIndex : Nat),
      leafResolve nodes leafData ix iy iz
        (((List.range fuel).reverse).foldl
          (loopBody nodes leafData ix iy iz bX bY bZ) (.go nodeIndex)) =
      classToBool leafData ix iy iz (descend nodes bX bY bZ fuel nodeIndex) := by
  intro fuel
  induction fuel with
  | zero =>
    intro nodeIndex
    simp only [List.range_zero, List.reverse_nil, List.foldl_nil]
    simp only [leafResolve, descend, classToBool]
    split
    · rfl
    · rfl
  | succ l ih =>
    intro nodeIndex
    rw [List.range_succ, List.reverse_append]
    simp only [List.reverse_singleton, List.singleton_append, List.foldl_cons]
    show leafResolve nodes leafData ix iy iz
        (((List.range l).reverse).foldl (loopBody nodes leafData ix iy iz bX bY bZ)
          (loopBody nodes leafData ix iy iz bX bY bZ (.go nodeIndex) l)) = _
    rw [show descend nodes bX bY bZ (l + 1) nodeIndex =
        (let node := nodes.getD nodeIndex 0 % 4294967296
        if node = SOLID_LEAF_MARKER then .solid
        else
          let childMask := (node >>> 24) &&& 0xFF
          if childMask = 0 then .mixedLeaf (node &&& 0xFFFFFF)
          else
            let bitX := ((bX % 4294967296) >>> (l % 32)) &&& 1
            let bitY := ((bY % 4294967296) >>> (l % 32)) &&& 1
            let bitZ := ((bZ % 4294967296) >>> (l % 32)) &&& 1
            let octant := (bitZ <<< 2) ||| (bitY <<< 1) ||| bitX
            if childMask &&& (1 <<< octant) = 0 then .empty
            else
              let baseOffset := node &&& 0xFFFFFF
              let pfx := (1 <<< octant) - 1
              descend nodes bX bY bZ l (baseOffset + popcount (childMask &&& pfx)))
      from rfl]
    simp only [loopBody]
    split
    · rw [foldl_loopBody_ret]; rfl
    · split
      · rw [foldl_loopBody_ret]; rfl
      · split
        · rw [foldl_loopBody_ret]; rfl
        · exact ih _

/-- C1: `isVoxelSolid` (the imperative loop over levels `treeDepth-1 .. 0`,
with `index / leafSize` block coordinates, sentinel short-circuit, mixed-leaf
resolution through the 64-bit mask at `(ix&3, iy&3, iz&3)`, octant selection
from bit `level` of each block coordinate and descent to
`baseOffset + popcount(childMask & mask-of-lower-octants)`, then leaf-level
sentinel/mixed-leaf resolution) coincides with the reference recursive octree
lookup `octreeLookup` on every grid and every voxel index triple. -/
theorem isVoxelSolid_eq_octreeLookup (g : Grid) (ix iy iz : Int) :
    isVoxelSolid g ix iy iz = octreeLookup g ix iy iz := by
  unfold isVoxelSolid octreeLookup
  split
  · rfl
  · exact loop_eq_descend g.nodes g.leafData _ _ _ _ _ _ g.treeDepth 0

/-- C2: whenever the traversal reaches a node whose 32-bit word is exactly
`0xFF000000`, the descent answers fully-solid at that node — at every tree
level (`fuel` arbitrary), including the leaf level reached after the loop
(`fuel = 0`) — and is never resolved as an interior node or a mixed leaf.
Moreover a fully-solid descent makes `isVoxelSolid` return `true` for every
in-range voxel index. -/
theorem sentinel_descend_solid (nodes : List Nat) (bX bY bZ fuel nodeIndex : Nat)
    (h : nodes.getD nodeIndex 0 % 4294967296 = SOLID_LEAF_MARKER) :
    descend nodes bX bY bZ fuel nodeIndex = .solid ∧
    ∀ (g : Grid) (ix iy iz : Int),
      ¬(g.nodes.length = 0 ∨ ix < 0 ∨ iy < 0 ∨ iz < 0 ∨
          g.numVoxelsX ≤ ix ∨ g.numVoxelsY ≤ iy ∨ g.numVoxelsZ ≤ iz) →
      descend g.nodes (ix.toNat / g.leafSize) (iy.toNat / g.leafSize)
          (iz.toNat / g.leafSize) g.treeDepth 0 = .solid →
      isVoxelSolid g ix iy iz = true := by
  constructor
  · cases fuel with
    | zero => simp only [descend]; rw [if_pos h]
    | succ l => simp only [descend]; rw [if_pos h]
  · intro g ix iy iz hrange hsolid
    unfold isVoxelSolid
    rw [if_neg hrange]
    rw [loop_eq_descend g.nodes g.leafData ix.toNat iy.toNat iz.toNat _ _ _ g.treeDepth 0]
    rw [hsolid]
    rfl

/-- Witness for `sentinel_descend_solid`: a synthetic node array whose root
word is the sentinel classifies as fully solid. -/
theorem sentinel_descend_solid_witness :
    descend [0xFF000000] 5 6 7 3 0 = .solid :=
  (sentinel_descend_solid [0xFF000000] 5 6 7 3 0 (by decide)).1

set_option maxRecDepth 20000 in
/-- The source's bit-twiddling `popcount` agrees with the WGSL builtin
`countOneBits` on every 8-bit argument (the only arguments either traversal
feeds it: `childMask & prefix` is always below 256). -/
lemma popcount_eq_countOneBits : ∀ n < 256, popcount n = countOneBits n := by
  decide

/-- Two formulations of reading one bit: the CPU path shifts the word right
and masks with 1, the GPU path masks the word with a shifted 1. -/
lemma bitTest_eq (x i : Nat) :
    (((x >>> i) &&& 1) == 1) = ((x &&& (1 <<< i)) != 0) := by
  have h1 : x >>> i = x / 2 ^ i := Nat.shiftRight_eq_div_pow x i
  have h2 : (1 : Nat) <<< i = 2 ^ i := by rw [Nat.shiftLeft_eq, one_mul]
  rw [h2, Nat.and_two_pow, h1, Nat.and_one_is_mod, Nat.testBit_to_div_mod]
  by_cases hd : x / 2 ^ i % 2 = 1
  · simp [hd]
  · simp [hd]

/-- WGSL `queryBlock` loop body, translated from the compute shader.  The
WGSL loop starts at `level = treeDepth - 1` and breaks after processing
`level = 0`, then resolves the reached node as sentinel-or-mixed-leaf; the
recursion below is on the level counter, so the `0` case inlines the break
and the trailing resolution.  Result encoding as in the shader:
`0` = empty, `1` = solid, `2 + leafDataIndex` = mixed leaf; the second
component is the level at which emptiness was detected. -/
def gpuAux (nodes : List Nat) (bX bY bZ : Nat) : Nat → Nat → Nat × Nat
  | 0, nodeIndex =>
    let node := nodes.getD nodeIndex 0 % 4294967296
    if node = SOLID_LEAF_MARKER then (1, 0)
    else
      let childMask := (node >>> 24) &&& 0xFF
      if childMask = 0 then (2 + (node &&& 0xFFFFFF), 0)
      else
        let bitX := ((bX % 4294967296) >>> (0 % 32)) &&& 1
        let bitY := ((bY % 4294967296) >>> (0 % 32)) &&& 1
        let bitZ := ((bZ % 4294967296) >>> (0 % 32)) &&& 1
        let octant := (bitZ <<< 2) ||| (bitY <<< 1) ||| bitX
        if childMask &&& (1 <<< octant) = 0 then (0, 0)
        else
          let baseOffset := node &&& 0xFFFFFF
          let pfx := (1 <<< octant) - 1
          let next := baseOffset + countOneBits (childMask &&& pfx)
          let node2 := nodes.getD next 0 % 4294967296
          if node2 = SOLID_LEAF_MARKER then (1, 0)
          else (2 + (node2 &&& 0xFFFFFF), 0)
  | l + 1, nodeIndex =>
    let node := nodes.getD nodeIndex 0 % 4294967296
    if node = SOLID_LEAF_MARKER then (1, 0)
    else
      let childMask := (node >>> 24) &&& 0xFF
      if childMask = 0 then (2 + (node &&& 0xFFFFFF), 0)
      else
        let bitX := ((bX % 4294967296) >>> ((l + 1) % 32)) &&& 1
        let bitY := ((bY % 4294967296) >>> ((l + 1) % 32)) &&& 1
        let bitZ := ((bZ % 4294967296) >>> ((l + 1) % 32)) &&& 1
        let octant := (bitZ <<< 2) ||| (bitY <<< 1) ||| bitX
        if childMask &&& (1 <<< octant) = 0 then (0, l + 1)
        else
          let baseOffset := node &&& 0xFFFFFF
          let pfx := (1 <<< octant) - 1
          gpuAux nodes bX bY bZ l (baseOffset + countOneBits (childMask &&& pfx))

/-- WGSL `queryBlock(bx, by, bz)`: start the descent at the root with
`level = treeDepth - 1`. -/
def gpuQueryBlock (nodes : List Nat) (treeDepth : Nat) (bX bY bZ : Nat) : Nat × Nat :=
  gpuAux nodes bX bY bZ (treeDepth - 1) 0

/-- Decode the shader's result word into the block classification. -/
def gpuClassOf (q : Nat × Nat) : BlockClass :=
  if q.1 = 0 then .empty
  else if q.1 = 1 then .solid
  else .mixedLeaf (q.1 - 2)

/-- Per-voxel solidity as computed by the shader's inner voxel loop for local
voxel coordinates `(vx, vy, vz)` of a block classified by `queryBlock`:
a solid block is solid everywhere, an empty block nowhere, and a mixed leaf
reads bit `vz*16 + vy*4 + vx` of the 64-bit mask `(maskLo, maskHi)`. -/
def gpuVoxelSolid (nodes leafData : List Nat) (treeDepth : Nat)
    (bX bY bZ vx vy vz : Nat) : Bool :=
  let q := gpuQueryBlock nodes treeDepth bX bY bZ
  if q.1 = 0 then false
  else if q.1 = 1 then true
  else
    let leafIdx := q.1 - 2
    let maskLo := leafData.getD (leafIdx * 2) 0 % 4294967296
    let maskHi := leafData.getD (leafIdx * 2 + 1) 0 % 4294967296
    let bitIndex := vz * 16 + vy * 4 + vx
    if bitIndex < 32 then (maskLo &&& (1 <<< bitIndex)) != 0
    else (maskHi &&& (1 <<< (bitIndex - 32))) != 0

/-- An and-mask with an 8-bit mask stays below 256. -/
lemma childMask_and_lt (node pfx : Nat) :
    ((node >>> 24) &&& 0xFF) &&& pfx < 256 :=
  lt_of_le_of_lt (le_trans Nat.and_le_left Nat.and_le_right) (by norm_num)

/-- The GPU descent starting at level `l` computes the same classification as
the CPU reference descent with fuel `l + 1`. -/
lemma gpuAux_eq_descend (nodes : List Nat) (bX bY bZ : Nat) :
    ∀ (l nodeIndex : Nat),
      gpuClassOf (gpuAux nodes bX bY bZ l nodeIndex) =
        descend nodes bX bY bZ (l + 1) nodeIndex := by
  intro l
  induction l with
  | zero =>
    intro nodeIndex
    simp only [gpuAux, descend]
    rw [← popcount_eq_countOneBits _ (childMask_and_lt _ _)]
    split
    · rfl
    · split
      · simp [gpuClassOf]; omega
      · split
        · rfl
        · split
          · rfl
          · simp [gpuClassOf]; omega
  | succ l ih =>
    intro nodeIndex
    simp only [gpuAux, descend]
    rw [← popcount_eq_countOneBits _ (childMask_and_lt _ _)]
    split
    · rfl
    · split
      · simp [gpuClassOf]; omega
      · split
        · rfl
        · exact ih _

/-- Masking with 3 is reduction mod 4. -/
lemma and_three_eq_mod (m : Nat) : m &&& 3 = m % 4 :=
  Nat.and_pow_two_sub_one_eq_mod m 2

/-- The CPU mixed-leaf bit read at global voxel indices equals the GPU bit
read at the local in-block coordinates `(i % 4, j % 4, k % 4)`. -/
lemma checkLeafBit_eq_gpu (leafData : List Nat) (leafIdx i j k : Nat) :
    checkLeafBit leafData leafIdx i j k =
      (if (k % 4) * 16 + (j % 4) * 4 + i % 4 < 32 then
        ((leafData.getD (leafIdx * 2) 0 % 4294967296) &&&
          (1 <<< ((k % 4) * 16 + (j % 4) * 4 + i % 4))) != 0
      else
        ((leafData.getD (leafIdx * 2 + 1) 0 % 4294967296) &&&
          (1 <<< ((k % 4) * 16 + (j % 4) * 4 + i % 4 - 32))) != 0) := by
  simp only [checkLeafBit]
  rw [and_three_eq_mod i, and_three_eq_mod j, and_three_eq_mod k]
  split
  · exact bitTest_eq _ _
  · exact bitTest_eq _ _

/-- C9: on every node/leaf buffer pair (with at least one tree level, as the
WGSL `u32` level counter underflows at `treeDepth = 0`), the GPU
`queryBlock` classification agrees with the CPU descent: it reports solid
exactly when the CPU descent reaches the solid-leaf sentinel, empty exactly
when the CPU descent finds a missing octant, and the same leaf-data index on
mixed leaves; consequently, for `leafSize = 4`, the shader's per-voxel test
matches `isVoxelSolid` on every in-range voxel of the block. -/
theorem gpuQueryBlock_agrees_with_cpu (g : Grid) (bX bY bZ : Nat)
    (hdepth : 1 ≤ g.treeDepth) :
    gpuClassOf (gpuQueryBlock g.nodes g.treeDepth bX bY bZ) =
      descend g.nodes bX bY bZ g.treeDepth 0 ∧
    (g.leafSize = 4 →
      ∀ ix iy iz : Int,
        ¬(g.nodes.length = 0 ∨ ix < 0 ∨ iy < 0 ∨ iz < 0 ∨
            g.numVoxelsX ≤ ix ∨ g.numVoxelsY ≤ iy ∨ g.numVoxelsZ ≤ iz) →
        ix.toNat / 4 = bX → iy.toNat / 4 = bY → iz.toNat / 4 = bZ →
        isVoxelSolid g ix iy iz =
          gpuVoxelSolid g.nodes g.leafData g.treeDepth bX bY bZ
            (ix.toNat % 4) (iy.toNat % 4) (iz.toNat % 4)) := by
  have hq : gpuClassOf (gpuQueryBlock g.nodes g.treeDepth bX bY bZ) =
      descend g.nodes bX bY bZ g.treeDepth 0 := by
    unfold gpuQueryBlock
    rw [gpuAux_eq_descend]
    congr 1
    omega
  refine ⟨hq, ?_⟩
  intro hleaf ix iy iz hrange hbx hby hbz
  unfold isVoxelSolid
  rw [if_neg hrange, loop_eq_descend, hleaf, hbx, hby, hbz]
  unfold gpuVoxelSolid
  rw [← hq]
  rcases hv : gpuQueryBlock g.nodes g.treeDepth bX bY bZ with ⟨r, lvl⟩
  dsimp only
  by_cases h0 : r = 0
  · subst h0; simp [gpuClassOf, classToBool]
  · by_cases h1 : r = 1
    · subst h1; simp [gpuClassOf, classToBool]
    · have hcl : gpuClassOf (r, lvl) = .mixedLeaf (r - 2) := by
        simp [gpuClassOf, h0, h1]
      rw [hcl, if_neg h0, if_neg h1]
      exact checkLeafBit_eq_gpu g.leafData (r - 2) ix.toNat iy.toNat iz.toNat

/-- Witness grid for the GPU/CPU agreement theorem: one tree level, the root
has a single child in octant 0, and that child is the solid sentinel. -/
def witnessGrid : Grid :=
  ⟨0, 0, 0, 4, 4, 4, 1, 4, 1, [0x01000001, 0xFF000000], []⟩

/-- Witness for `gpuQueryBlock_agrees_with_cpu` at a concrete grid and voxel. -/
theorem gpuQueryBlock_agrees_with_cpu_witness :
    isVoxelSolid witnessGrid 1 1 1 =
      gpuVoxelSolid witnessGrid.nodes witnessGrid.leafData witnessGrid.treeDepth
        0 0 0 1 1 1 :=
  (gpuQueryBlock_agrees_with_cpu witnessGrid 0 0 0 (by decide)).2 rfl 1 1 1
    (by decide) rfl rfl rfl

/-- Rational 3-vector (the mutable `{x, y, z}` records of the source). -/
structure Vec3 where
  x : ℚ
  y : ℚ
  z : ℚ
deriving DecidableEq

/-- Runtime state of a `VoxelCollider` instance: the immutable grid data plus
the pre-allocated scratch fields `_push` and `_constraintNormals` that the
queries write into. -/
structure Collider where
  grid : Grid
  push : Vec3
  n0 : Vec3
  n1 : Vec3
  n2 : Vec3
deriving DecidableEq

/-- Read `this._constraintNormals[i]`. -/
def getNormal (c : Collider) : Nat → Vec3
  | 0 => c.n0
  | 1 => c.n1
  | _ => c.n2

/-- Write `this._constraintNormals[i]` (the source only ever writes indices
below 3, guarded by `numNormals < 3`). -/
def setNormal (c : Collider) : Nat → Vec3 → Collider
  | 0, v => { c with n0 := v }
  | 1, v => { c with n1 := v }
  | 2, v => { c with n2 := v }
  | _ + 3, _ => c

/-- Integer range `[a, a+1, ..., b]` of a `for (i = a; i <= b; i++)` loop. -/
def intRange (a b : Int) : List Int :=
  (List.range (b + 1 - a).toNat).map (fun n => a + (n : Int))

/-- Inside-the-voxel branch of the penetration test ("push to nearest face +
radius so the sphere surface ends up flush with the face"): signed escape per
axis is the distance to the nearer face plus the radius in that outward
direction, and the axis with least absolute escape is chosen (X preferred
over Y over Z on ties).  Returns the push vector and the penetration depth.
`pointY` is the Y of the shape's defining point (`cy` for a sphere, `segY`
for a capsule). -/
def insideEscapePush (cx pointY cz vMinX vMinY vMinZ vMaxX vMaxY vMaxZ radius : ℚ) :
    Vec3 × ℚ :=
  let distNegX := cx - vMinX
  let distPosX := vMaxX - cx
  let distNegY := pointY - vMinY
  let distPosY := vMaxY - pointY
  let distNegZ := cz - vMinZ
  let distPosZ := vMaxZ - cz
  let escapeX := if distNegX < distPosX then -(distNegX + radius) else distPosX + radius
  let escapeY := if distNegY < distPosY then -(distNegY + radius) else distPosY + radius
  let escapeZ := if distNegZ < distPosZ then -(distNegZ + radius) else distPosZ + radius
  let absX := |escapeX|
  let absY := |escapeY|
  let absZ := |escapeZ|
  if absX ≤ absY ∧ absX ≤ absZ then (⟨escapeX, 0, 0⟩, absX)
  else if absY ≤ absZ then (⟨0, escapeY, 0⟩, absY)
  else (⟨0, 0, escapeZ⟩, absZ)

/-- Per-voxel sphere-vs-AABB penetration test from the shape's defining point
`(cx, pointY, cz)`: `none` models the source's `continue` (no penetration),
`some (push, penetration)` the computed push-out candidate.  This block is
textually identical in `resolveDeepestPenetration` (with `pointY = cy`) and
`resolveDeepestPenetrationCapsule` (with `pointY = segY`). -/
def spherePointContrib (sqrt : ℚ → ℚ)
    (cx pointY cz radius radiusSq vMinX vMinY vMinZ vMaxX vMaxY vMaxZ : ℚ) :
    Option (Vec3 × ℚ) :=
  let nearX := max vMinX (min cx vMaxX)
  let nearY := max vMinY (min pointY vMaxY)
  let nearZ := max vMinZ (min cz vMaxZ)
  let dx := cx - nearX
  let dy := pointY - nearY
  let dz := cz - nearZ
  let distSq := dx * dx + dy * dy + dz * dz
  if distSq ≥ radiusSq then none
  else if distSq > INSIDE_EPSILON then
    let dist := sqrt distSq
    let penetration := radius - dist
    let invDist := 1 / dist
    some (⟨dx * invDist * penetration, dy * invDist * penetration,
      dz * invDist * penetration⟩, penetration)
  else
    some (insideEscapePush cx pointY cz vMinX vMinY vMinZ vMaxX vMaxY vMaxZ radius)

/-- One voxel of the sphere resolver's triple loop: skip unless solid, build
the voxel AABB, then run the penetration test from the sphere center. -/
def sphereVoxelStep (sqrt : ℚ → ℚ) (g : Grid) (cx cy cz radius radiusSq : ℚ)
    (ix iy iz : Int) : Option (Vec3 × ℚ) :=
  if isVoxelSolid g ix iy iz then
    let vMinX := g.gridMinX + (ix : ℚ) * g.voxelResolution
    let vMinY := g.gridMinY + (iy : ℚ) * g.voxelResolution
    let vMinZ := g.gridMinZ + (iz : ℚ) * g.voxelResolution
    let vMaxX := vMinX + g.voxelResolution
    let vMaxY := vMinY + g.voxelResolution
    let vMaxZ := vMinZ + g.voxelResolution
    spherePointContrib sqrt cx cy cz radius radiusSq vMinX vMinY vMinZ vMaxX vMaxY vMaxZ
  else none

/-- One voxel of the capsule resolver's triple loop: additionally picks the
segment point `segY` closest to the AABB (Y-only, the segment is vertical),
then runs the same penetration test from `(cx, segY, cz)`. -/
def capsuleVoxelStep (sqrt : ℚ → ℚ) (g : Grid)
    (cx segBottomY segTopY cz radius radiusSq : ℚ) (ix iy iz : Int) :
    Option (Vec3 × ℚ) :=
  if isVoxelSolid g ix iy iz then
    let vMinX := g.gridMinX + (ix : ℚ) * g.voxelResolution
    let vMinY := g.gridMinY + (iy : ℚ) * g.voxelResolution
    let vMinZ := g.gridMinZ + (iz : ℚ) * g.voxelResolution
    let vMaxX := vMinX + g.voxelResolution
    let vMaxY := vMinY + g.voxelResolution
    let vMaxZ := vMinZ + g.voxelResolution
    let segY :=
      if segTopY < vMinY then segTopY
      else if segBottomY > vMaxY then segBottomY
      else max segBottomY (min segTopY ((vMinY + vMaxY) * (1 / 2)))
    spherePointContrib sqrt cx segY cz radius radiusSq vMinX vMinY vMinZ vMaxX vMaxY vMaxZ
  else none

/-- Deepest-penetration bookkeeping: a candidate replaces the running best
only when its penetration strictly exceeds it (initialised with
`PENETRATION_EPSILON`). -/
def bestStep (st : Vec3 × ℚ × Bool) (contrib : Option (Vec3 × ℚ)) : Vec3 × ℚ × Bool :=
  match contrib with
  | none => st
  | some (p, pen) => if pen > st.2.1 then (p, pen, true) else st

/-- Pure core of `resolveDeepestPenetration`: scan the sphere's voxel
bounding box in the source's `z`-outer/`x`-inner order and track the single
deepest penetration; returns the `found` flag and the best push vector. -/
def resolveSphereCore (sqrt : ℚ → ℚ) (g : Grid) (cx cy cz radius : ℚ) : Bool × Vec3 :=
  let radiusSq := radius * radius
  let ixMin := ⌊(cx - radius - g.gridMinX) / g.voxelResolution⌋
  let iyMin := ⌊(cy - radius - g.gridMinY) / g.voxelResolution⌋
  let izMin := ⌊(cz - radius - g.gridMinZ) / g.voxelResolution⌋
  let ixMax := ⌊(cx + radius - g.gridMinX) / g.voxelResolution⌋
  let iyMax := ⌊(cy + radius - g.gridMinY) / g.voxelResolution⌋
  let izMax := ⌊(cz + radius - g.gridMinZ) / g.voxelResolution⌋
  let st := (intRange izMin izMax).foldl (fun s iz =>
      (intRange iyMin iyMax).foldl (fun s iy =>
        (intRange ixMin ixMax).foldl (fun s ix =>
          bestStep s (sphereVoxelStep sqrt g cx cy cz radius radiusSq ix iy iz)) s) s)
    (⟨0, 0, 0⟩, PENETRATION_EPSILON, false)
  (st.2.2, st.1)

/-- Pure core of `resolveDeepestPenetrationCapsule`: voxel bounding box of
the capsule (cap spheres extend the Y range), same deepest-penetration scan. -/
def resolveCapsuleCore (sqrt : ℚ → ℚ) (g : Grid) (cx cy cz halfHeight radius : ℚ) :
    Bool × Vec3 :=
  let radiusSq := radius * radius
  let segBottomY := cy - halfHeight
  let segTopY := cy + halfHeight
  let ixMin := ⌊(cx - radius - g.gridMinX) / g.voxelResolution⌋
  let iyMin := ⌊(segBottomY - radius - g.gridMinY) / g.voxelResolution⌋
  let izMin := ⌊(cz - radius - g.gridMinZ) / g.voxelResolution⌋
  let ixMax := ⌊(cx + radius - g.gridMinX) / g.voxelResolution⌋
  let iyMax := ⌊(segTopY + radius - g.gridMinY) / g.voxelResolution⌋
  let izMax := ⌊(cz + radius - g.gridMinZ) / g.voxelResolution⌋
  let st := (intRange izMin izMax).foldl (fun s iz =>
      (intRange iyMin iyMax).foldl (fun s iy =>
        (intRange ixMin ixMax).foldl (fun s ix =>
          bestStep s (capsuleVoxelStep sqrt g cx segBottomY segTopY cz radius radiusSq ix iy iz)) s) s)
    (⟨0, 0, 0⟩, PENETRATION_EPSILON, false)
  (st.2.2, st.1)

/-- Source `resolveDeepestPenetration`: on success the best push vector is
written into the collider's scratch field `_push`. -/
def resolveDeepestPenetration (sqrt : ℚ → ℚ) (c : Collider) (cx cy cz radius : ℚ) :
    Bool × Collider :=
  let r := resolveSphereCore sqrt c.grid cx cy cz radius
  (r.1, if r.1 then { c with push := r.2 } else c)

/-- Source `resolveDeepestPenetrationCapsule`: capsule variant of the same. -/
def resolveDeepestPenetrationCapsule (sqrt : ℚ → ℚ) (c : Collider)
    (cx cy cz halfHeight radius : ℚ) : Bool × Collider :=
  let r := resolveCapsuleCore sqrt c.grid cx cy cz halfHeight radius
  (r.1, if r.1 then { c with push := r.2 } else c)

/-- One projection step: remove from the push the component that contradicts
an established constraint normal (only when `dot < 0`).  Shared verbatim by
the source loop and §4.5 of the spec. -/
def projStep (q n : Vec3) : Vec3 :=
  let d := q.x * n.x + q.y * n.y + q.z * n.z
  if d < 0 then ⟨q.x - d * n.x, q.y - d * n.y, q.z - d * n.z⟩ else q

/-- Projection loop of the query wrappers: fold `projStep` over the recorded
constraint normals `_constraintNormals[0 .. numNormals)`. -/
def projectPush (c : Collider) (numNormals : Nat) (p : Vec3) : Vec3 :=
  (List.range numNormals).foldl (fun q i => projStep q (getNormal c i)) p

/-- Result of the iterative wrapper loop: final collider state, accumulated
total push and the `hadCollision` flag. -/
structure IterResult where
  c : Collider
  totX : ℚ
  totY : ℚ
  totZ : ℚ
  had : Bool

/-- Iterative wrapper loop shared textually by `querySphere` and
`queryCapsule` (the two source bodies are identical except for the resolver
they call): resolve at the current position, stop early on no penetration,
project the push against recorded normals, record the pre-projection push
direction as a new unit normal when long enough and fewer than 3 are stored,
then advance and accumulate. -/
def queryIterAux (sqrt : ℚ → ℚ) (resolve : Collider → ℚ → ℚ → ℚ → Bool × Collider) :
    Nat → Collider → ℚ → ℚ → ℚ → ℚ → ℚ → ℚ → Bool → Nat → IterResult
  | 0, c, _, _, _, tX, tY, tZ, had, _ => ⟨c, tX, tY, tZ, had⟩
  | rem + 1, c, x, y, z, tX, tY, tZ, had, numNormals =>
    let r := resolve c x y z
    if r.1 = false then ⟨r.2, tX, tY, tZ, had⟩
    else
      let c1 := r.2
      let p := projectPush c1 numNormals c1.push
      let len := sqrt (c1.push.x * c1.push.x + c1.push.y * c1.push.y + c1.push.z * c1.push.z)
      let upd :=
        if len > PENETRATION_EPSILON ∧ numNormals < 3 then
          let invLen := 1 / len
          (setNormal c1 numNormals
            ⟨c1.push.x * invLen, c1.push.y * invLen, c1.push.z * invLen⟩,
           numNormals + 1)
        else (c1, numNormals)
      queryIterAux sqrt resolve rem upd.1 (x + p.x) (y + p.y) (z + p.z)
        (tX + p.x) (tY + p.y) (tZ + p.z) true upd.2

/-- Source `queryPoint`: world coordinates to voxel indices by flooring,
then the octree lookup. -/
def queryPoint (c : Collider) (x y z : ℚ) : Bool :=
  isVoxelSolid c.grid
    ⌊(x - c.grid.gridMinX) / c.grid.voxelResolution⌋
    ⌊(y - c.grid.gridMinY) / c.grid.voxelResolution⌋
    ⌊(z - c.grid.gridMinZ) / c.grid.voxelResolution⌋

/-- Source `querySphere`: guard on an unloaded grid, run at most 4 resolver
iterations, report a collision (and only then write `out`) exactly when some
iteration found a penetration and the total push is significant.  Returns
`(result, out after the call, collider state after the call)`. -/
def querySphere (sqrt : ℚ → ℚ) (c : Collider) (cx cy cz radius : ℚ) (out : Vec3) :
    Bool × Vec3 × Collider :=
  if c.grid.nodes.length = 0 then (false, out, c)
  else
    let r := queryIterAux sqrt
      (fun c x y z => resolveDeepestPenetration sqrt c x y z radius)
      4 c cx cy cz 0 0 0 false 0
    let totalPushSq := r.totX * r.totX + r.totY * r.totY + r.totZ * r.totZ
    if r.had = true ∧ totalPushSq > PENETRATION_EPSILON * PENETRATION_EPSILON then
      (true, ⟨r.totX, r.totY, r.totZ⟩, r.c)
    else (false, out, r.c)

/-- Source `queryCapsule`: identical wrapper around the capsule resolver. -/
def queryCapsule (sqrt : ℚ → ℚ) (c : Collider) (cx cy cz halfHeight radius : ℚ)
    (out : Vec3) : Bool × Vec3 × Collider :=
  if c.grid.nodes.length = 0 then (false, out, c)
  else
    let r := queryIterAux sqrt
      (fun c x y z => resolveDeepestPenetrationCapsule sqrt c x y z halfHeight radius)
      4 c cx cy cz 0 0 0 false 0
    let totalPushSq := r.totX * r.totX + r.totY * r.totY + r.totZ * r.totZ
    if r.had = true ∧ totalPushSq > PENETRATION_EPSILON * PENETRATION_EPSILON then
      (true, ⟨r.totX, r.totY, r.totZ⟩, r.c)
    else (false, out, r.c)

/-- Decoder slicing of `VoxelCollider.load`: `view.slice(0, nodeCount)`
becomes `nodes` and `view.slice(nodeCount, nodeCount + leafDataCount)`
becomes `leafData` (JavaScript `slice` clamps to the available length). -/
def loadSlices (nodeCount leafDataCount : Nat) (buffer : List Nat) :
    List Nat × List Nat :=
  (buffer.take nodeCount, (buffer.drop nodeCount).take leafDataCount)

/-- Collider with an unloaded (empty) node array. -/
def emptyCollider : Collider :=
  ⟨⟨0, 0, 0, 4, 4, 4, 1, 4, 1, [], []⟩, ⟨0, 0, 0⟩, ⟨0, 0, 0⟩, ⟨0, 0, 0⟩, ⟨0, 0, 0⟩⟩

/-- Collider over an everywhere-solid 4×4×4 grid (root is the solid
sentinel, `treeDepth = 0`), with a sentinel value in the `_push` scratch
field so that writes to it are observable. -/
def exCollider : Collider :=
  ⟨⟨0, 0, 0, 4, 4, 4, 1, 4, 0, [0xFF000000], []⟩, ⟨5, 5, 5⟩,
    ⟨0, 0, 0⟩, ⟨0, 0, 0⟩, ⟨0, 0, 0⟩⟩

/-- C4: any voxel index that is negative or at least `numVoxels` on some axis
is reported not solid (the traversal is never entered), and on a grid with an
empty node array every query — point, sphere and capsule — returns "no
collision" (totally, hence never throwing) and leaves `out` and the collider
untouched. -/
theorem out_of_range_and_empty_grid (g : Grid) (ix iy iz : Int)
    (h : ix < 0 ∨ iy < 0 ∨ iz < 0 ∨
      g.numVoxelsX ≤ ix ∨ g.numVoxelsY ≤ iy ∨ g.numVoxelsZ ≤ iz) :
    isVoxelSolid g ix iy iz = false ∧
    ∀ (sqrt : ℚ → ℚ) (c : Collider) (x y z cx cy cz halfHeight radius : ℚ)
      (out : Vec3), c.grid.nodes = [] →
      queryPoint c x y z = false ∧
      querySphere sqrt c cx cy cz radius out = (false, out, c) ∧
      queryCapsule sqrt c cx cy cz halfHeight radius out = (false, out, c) := by
  constructor
  · unfold isVoxelSolid
    rw [if_pos (by tauto)]
  · intro sqrt c x y z cx cy cz halfHeight radius out hempty
    have hlen : c.grid.nodes.length = 0 := by rw [hempty]; rfl
    refine ⟨?_, ?_, ?_⟩
    · unfold queryPoint isVoxelSolid
      rw [if_pos (Or.inl hlen)]
    · unfold querySphere
      rw [if_pos hlen]
    · unfold queryCapsule
      rw [if_pos hlen]

/-- Witness for `out_of_range_and_empty_grid`: index exactly `numVoxels` on
the X axis, and a sphere query on an unloaded grid. -/
theorem out_of_range_and_empty_grid_witness :
    isVoxelSolid witnessGrid 4 0 0 = false ∧
    querySphere (fun q => q) emptyCollider 1 2 3 4 ⟨7, 8, 9⟩ =
      (false, ⟨7, 8, 9⟩, emptyCollider) := by
  have h := out_of_range_and_empty_grid witnessGrid 4 0 0 (by decide)
  exact ⟨h.1, (h.2 (fun q => q) emptyCollider 0 0 0 1 2 3 0 4 ⟨7, 8, 9⟩ rfl).2.1⟩

/-- C6: when `querySphere` or `queryCapsule` reports no significant
collision, the caller-supplied `out` parameter is returned exactly as it was
passed in; it is written only on a `true` result. -/
theorem out_unmodified_on_false (sqrt : ℚ → ℚ) (c : Collider)
    (cx cy cz halfHeight radius : ℚ) (out : Vec3)
    (hs : (querySphere sqrt c cx cy cz radius out).1 = false)
    (hc : (queryCapsule sqrt c cx cy cz halfHeight radius out).1 = false) :
    (querySphere sqrt c cx cy cz radius out).2.1 = out ∧
    (queryCapsule sqrt c cx cy cz halfHeight radius out).2.1 = out := by
  constructor
  · by_cases hn : c.grid.nodes.length = 0
    · simp only [querySphere, if_pos hn]
    · simp only [querySphere, if_neg hn] at hs ⊢
      split at hs
      · simp at hs
      · split
        · simp_all
        · rfl
  · by_cases hn : c.grid.nodes.length = 0
    · simp only [queryCapsule, if_pos hn]
    · simp only [queryCapsule, if_neg hn] at hc ⊢
      split at hc
      · simp at hc
      · split
        · simp_all
        · rfl

/-- Witness for `out_unmodified_on_false`: queries on the unloaded grid
return `false` and hand back `out = ⟨1, 2, 3⟩` unchanged. -/
theorem out_unmodified_on_false_witness :
    (querySphere (fun q => q) emptyCollider 0 0 0 1 ⟨1, 2, 3⟩).2.1 = ⟨1, 2, 3⟩ ∧
    (queryCapsule (fun q => q) emptyCollider 0 0 0 1 1 ⟨1, 2, 3⟩).2.1 = ⟨1, 2, 3⟩ :=
  out_unmodified_on_false (fun q => q) emptyCollider 0 0 0 1 1 ⟨1, 2, 3⟩
    (by decide) (by decide)

/-- Writing a constraint normal never touches the grid data. -/
lemma setNormal_grid (c : Collider) (k : Nat) (v : Vec3) :
    (setNormal c k v).grid = c.grid := by
  rcases k with _ | _ | _ | k <;> rfl

/-- The sphere resolver writes only the `_push` scratch field. -/
lemma resolveDeepestPenetration_grid (sqrt : ℚ → ℚ) (c : Collider)
    (cx cy cz radius : ℚ) :
    (resolveDeepestPenetration sqrt c cx cy cz radius).2.grid = c.grid := by
  simp only [resolveDeepestPenetration]
  split <;> rfl

/-- The capsule resolver writes only the `_push` scratch field. -/
lemma resolveDeepestPenetrationCapsule_grid (sqrt : ℚ → ℚ) (c : Collider)
    (cx cy cz halfHeight radius : ℚ) :
    (resolveDeepestPenetrationCapsule sqrt c cx cy cz halfHeight radius).2.grid = c.grid := by
  simp only [resolveDeepestPenetrationCapsule]
  split <;> rfl

/-- The wrapper loop preserves the grid data for any grid-preserving
resolver. -/
lemma queryIterAux_grid (sqrt : ℚ → ℚ)
    (resolve : Collider → ℚ → ℚ → ℚ → Bool × Collider)
    (hres : ∀ c x y z, (resolve c x y z).2.grid = c.grid) :
    ∀ (rem : Nat) (c : Collider) (x y z tX tY tZ : ℚ) (had : Bool) (nn : Nat),
      (queryIterAux sqrt resolve rem c x y z tX tY tZ had nn).c.grid = c.grid := by
  intro rem
  induction rem with
  | zero => intro c x y z tX tY tZ had nn; rfl
  | succ rem ih =>
    intro c x y z tX tY tZ had nn
    simp only [queryIterAux]
    split
    · exact hres c x y z
    · rw [ih]
      split
      · rw [setNormal_grid]
        exact hres c x y z
      · exact hres c x y z

/-- C7 (amended): no query modifies the octree node and leaf arrays or any
grid parameter — `queryPoint` is a pure function of the collider, and the
collider returned by `querySphere`/`queryCapsule` carries the same `grid`
component, so only the scratch fields `_push` and `_constraintNormals` can
differ (see `querySphere_mutates_scratch` for an actual scratch write). -/
theorem queries_preserve_grid (sqrt : ℚ → ℚ) (c : Collider)
    (cx cy cz halfHeight radius : ℚ) (out : Vec3) :
    (querySphere sqrt c cx cy cz radius out).2.2.grid = c.grid ∧
    (queryCapsule sqrt c cx cy cz halfHeight radius out).2.2.grid = c.grid := by
  constructor
  · by_cases hn : c.grid.nodes.length = 0
    · simp only [querySphere, if_pos hn]
    · simp only [querySphere, if_neg hn]
      split
      · exact queryIterAux_grid sqrt _
          (fun c x y z => resolveDeepestPenetration_grid sqrt c x y z radius) 4 c
          cx cy cz 0 0 0 false 0
      · exact queryIterAux_grid sqrt _
          (fun c x y z => resolveDeepestPenetration_grid sqrt c x y z radius) 4 c
          cx cy cz 0 0 0 false 0
  · by_cases hn : c.grid.nodes.length = 0
    · simp only [queryCapsule, if_pos hn]
    · simp only [queryCapsule, if_neg hn]
      split
      · exact queryIterAux_grid sqrt _
          (fun c x y z => resolveDeepestPenetrationCapsule_grid sqrt c x y z halfHeight radius)
          4 c cx cy cz 0 0 0 false 0
      · exact queryIterAux_grid sqrt _
          (fun c x y z => resolveDeepestPenetrationCapsule_grid sqrt c x y z halfHeight radius)
          4 c cx cy cz 0 0 0 false 0

/-- Counterexample to C7 as stated: a successful `querySphere` overwrites the
collider's shared pre-allocated `_push` scratch field (it held `⟨5,5,5⟩`
before the call), so collider fields are NOT all unchanged and concurrent
callers sharing one instance would race on it. -/
theorem querySphere_mutates_scratch :
    (querySphere (fun q => q) exCollider (1/2) (1/2) (1/2) (1/2) ⟨0, 0, 0⟩).2.2.push ≠
      exCollider.push := by
  with_unfolding_all decide

/-- Counterexample to C5 as stated: a buffer holding fewer than
`nodeCount + leafDataCount` words (here 1 < 2 + 2) is not rejected — the
decoder's `slice` calls clamp, yielding truncated `nodes`/`leafData` arrays,
and the grid is constructed anyway. -/
theorem loadSlices_short_buffer_truncates :
    loadSlices 2 2 [7] = ([7], []) ∧ ([7] : List Nat).length < 2 + 2 := by
  decide

/-- C5 (amended): the decoder takes the buffer's first `nodeCount` words as
`nodes` and the next `leafDataCount` words as `leafData`; when the buffer is
long enough the lengths are exactly the counts, and in general `slice` clamps
to the available words instead of failing. -/
theorem loadSlices_contract (nodeCount leafDataCount : Nat) (buffer : List Nat)
    (h : nodeCount + leafDataCount ≤ buffer.length) :
    ((loadSlices nodeCount leafDataCount buffer).1.length = nodeCount ∧
     (loadSlices nodeCount leafDataCount buffer).2.length = leafDataCount) ∧
    (∀ i, i < nodeCount →
      (loadSlices nodeCount leafDataCount buffer).1.getD i 0 = buffer.getD i 0) ∧
    (∀ j, j < leafDataCount →
      (loadSlices nodeCount leafDataCount buffer).2.getD j 0 =
        buffer.getD (nodeCount + j) 0) := by
  refine ⟨⟨?_, ?_⟩, ?_, ?_⟩
  · simp [loadSlices]
    omega
  · simp [loadSlices]
    omega
  · intro i hi
    simp only [loadSlices, List.getD_eq_getElem?_getD]
    rw [List.getElem?_take_of_lt hi]
  · intro j hj
    simp only [loadSlices, List.getD_eq_getElem?_getD]
    rw [List.getElem?_take_of_lt hj, List.getElem?_drop]

/-- Witness for `loadSlices_contract` on a buffer of exactly the right
length. -/
theorem loadSlices_contract_witness :
    (loadSlices 1 1 [3, 4]).1.length = 1 ∧ (loadSlices 1 1 [3, 4]).2.length = 1 :=
  (loadSlices_contract 1 1 [3, 4] (by decide)).1

/-- With a degenerate (zero half-height) segment, the capsule per-voxel step
always selects `segY = cy` and so coincides with the sphere per-voxel step. -/
lemma capsuleVoxelStep_degenerate (sqrt : ℚ → ℚ) (g : Grid)
    (cx cy cz radius radiusSq : ℚ) (ix iy iz : Int) :
    capsuleVoxelStep sqrt g cx cy cy cz radius radiusSq ix iy iz =
      sphereVoxelStep sqrt g cx cy cz radius radiusSq ix iy iz := by
  have hseg : ∀ lo hi : ℚ,
      (if cy < lo then cy else if cy > hi then cy
        else max cy (min cy ((lo + hi) * (1 / 2)))) = cy := by
    intro lo hi
    split
    · rfl
    · split
      · rfl
      · exact max_eq_left (min_le_left _ _)
  simp only [capsuleVoxelStep, sphereVoxelStep, hseg]

/-- The capsule resolver core with `halfHeight = 0` is the sphere resolver
core. -/
lemma resolveCapsuleCore_zero (sqrt : ℚ → ℚ) (g : Grid) (cx cy cz radius : ℚ) :
    resolveCapsuleCore sqrt g cx cy cz 0 radius =
      resolveSphereCore sqrt g cx cy cz radius := by
  simp only [resolveCapsuleCore, resolveSphereCore, sub_zero, add_zero,
    capsuleVoxelStep_degenerate]

/-- C10: `queryCapsule` with `halfHeight = 0` returns exactly what
`querySphere` returns at the same center, radius and output parameter — the
degenerate segment always yields `segY = cy`, making the capsule resolver
coincide with the sphere resolver, and the two iterative wrappers are
otherwise identical. -/
theorem queryCapsule_degenerate_eq_querySphere (sqrt : ℚ → ℚ) (c : Collider)
    (cx cy cz radius : ℚ) (out : Vec3) :
    queryCapsule sqrt c cx cy cz 0 radius out =
      querySphere sqrt c cx cy cz radius out := by
  have hres : (fun c x y z => resolveDeepestPenetrationCapsule sqrt c x y z 0 radius) =
      (fun c x y z => resolveDeepestPenetration sqrt c x y z radius) := by
    funext c x y z
    simp only [resolveDeepestPenetrationCapsule, resolveDeepestPenetration,
      resolveCapsuleCore_zero]
  simp only [queryCapsule, querySphere, hres]

/-- Escape distance on one axis as the spec words it: the signed distance to
the nearer of the two AABB faces, plus the radius in that outward direction. -/
def specEscape (c lo hi radius : ℚ) : ℚ :=
  if c - lo < hi - c then -((c - lo) + radius) else (hi - c) + radius

/-- Squared distance from the defining point to the closest point of the
AABB (the `distSq` the resolver computes before branching). -/
def closestSqDist (cx pointY cz vMinX vMinY vMinZ vMaxX vMaxY vMaxZ : ℚ) : ℚ :=
  let nearX := max vMinX (min cx vMaxX)
  let nearY := max vMinY (min pointY vMaxY)
  let nearZ := max vMinZ (min cz vMaxZ)
  let dx := cx - nearX
  let dy := pointY - nearY
  let dz := cz - nearZ
  dx * dx + dy * dy + dz * dz

/-- Axis selection of the inside-the-voxel branch, abstracted over the three
escape values (X preferred over Y over Z on ties, as in the source). -/
def axisPick (e1 e2 e3 : ℚ) : Vec3 × ℚ :=
  if |e1| ≤ |e2| ∧ |e1| ≤ |e3| then (⟨e1, 0, 0⟩, |e1|)
  else if |e2| ≤ |e3| then (⟨0, e2, 0⟩, |e2|)
  else (⟨0, 0, e3⟩, |e3|)

/-- The source's inside-branch computation is exactly the axis selection over
the three spec escape distances. -/
lemma insideEscapePush_eq_axisPick
    (cx pointY cz vMinX vMinY vMinZ vMaxX vMaxY vMaxZ radius : ℚ) :
    insideEscapePush cx pointY cz vMinX vMinY vMinZ vMaxX vMaxY vMaxZ radius =
      axisPick (specEscape cx vMinX vMaxX radius) (specEscape pointY vMinY vMaxY radius)
        (specEscape cz vMinZ vMaxZ radius) := rfl

/-- The selected penetration is the least of the three absolute escapes. -/
lemma axisPick_pen (e1 e2 e3 : ℚ) :
    (axisPick e1 e2 e3).2 = min |e1| (min |e2| |e3|) := by
  unfold axisPick
  by_cases h1 : |e1| ≤ |e2| ∧ |e1| ≤ |e3|
  · rw [if_pos h1]
    exact (min_eq_left (le_min h1.1 h1.2)).symm
  · rw [if_neg h1]
    by_cases h2 : |e2| ≤ |e3|
    · rw [if_pos h2]
      have h21 : |e2| ≤ |e1| := by
        rcases not_and_or.mp h1 with h | h <;> linarith [not_le.mp h]
      rw [min_eq_left h2, min_eq_right h21]
    · rw [if_neg h2]
      have h3 : |e3| ≤ |e2| := le_of_not_le h2
      have h31 : |e3| ≤ |e1| := by
        rcases not_and_or.mp h1 with h | h <;> linarith [not_le.mp h]
      rw [min_eq_right h3, min_eq_right h31]

/-- The push is a single-axis vector carrying the escape of the selected
axis, whose absolute value is the recorded penetration. -/
lemma axisPick_axis (e1 e2 e3 : ℚ) :
    ((axisPick e1 e2 e3).1 = (⟨e1, 0, 0⟩ : Vec3) ∧ |e1| = (axisPick e1 e2 e3).2) ∨
    ((axisPick e1 e2 e3).1 = (⟨0, e2, 0⟩ : Vec3) ∧ |e2| = (axisPick e1 e2 e3).2) ∨
    ((axisPick e1 e2 e3).1 = (⟨0, 0, e3⟩ : Vec3) ∧ |e3| = (axisPick e1 e2 e3).2) := by
  unfold axisPick
  by_cases h1 : |e1| ≤ |e2| ∧ |e1| ≤ |e3|
  · left
    rw [if_pos h1]
    exact ⟨rfl, rfl⟩
  · rw [if_neg h1]
    by_cases h2 : |e2| ≤ |e3|
    · right; left
      rw [if_pos h2]
      exact ⟨rfl, rfl⟩
    · right; right
      rw [if_neg h2]
      exact ⟨rfl, rfl⟩

/-- C8: when the shape's defining point `(cx, pointY, cz)` lies inside the
voxel AABB (squared distance to the closest AABB point at most `1e-12`, and
below the squared radius), the per-voxel test returns the inside-branch
result; that result pushes along the single axis of least escape distance
`min(|escape_x|, |escape_y|, |escape_z|)` — each escape being the signed
distance to the nearer AABB face plus the radius outward (`specEscape`) —
and records that least absolute escape as the penetration.  The final
conjunct shows the branch is what the sphere resolver's per-voxel step
produces on a solid voxel with this AABB; the capsule resolver reaches the
identical `spherePointContrib` block with `pointY = segY`. -/
theorem inside_push_along_least_escape (sqrt : ℚ → ℚ)
    (cx pointY cz radius radiusSq vMinX vMinY vMinZ vMaxX vMaxY vMaxZ : ℚ)
    (hin : closestSqDist cx pointY cz vMinX vMinY vMinZ vMaxX vMaxY vMaxZ ≤
      INSIDE_EPSILON)
    (hpen : closestSqDist cx pointY cz vMinX vMinY vMinZ vMaxX vMaxY vMaxZ < radiusSq) :
    spherePointContrib sqrt cx pointY cz radius radiusSq
        vMinX vMinY vMinZ vMaxX vMaxY vMaxZ =
      some (insideEscapePush cx pointY cz vMinX vMinY vMinZ vMaxX vMaxY vMaxZ radius) ∧
    (insideEscapePush cx pointY cz vMinX vMinY vMinZ vMaxX vMaxY vMaxZ radius).2 =
      min |specEscape cx vMinX vMaxX radius|
        (min |specEscape pointY vMinY vMaxY radius| |specEscape cz vMinZ vMaxZ radius|) ∧
    (((insideEscapePush cx pointY cz vMinX vMinY vMinZ vMaxX vMaxY vMaxZ radius).1 =
        (⟨specEscape cx vMinX vMaxX radius, 0, 0⟩ : Vec3) ∧
      |specEscape cx vMinX vMaxX radius| =
        (insideEscapePush cx pointY cz vMinX vMinY vMinZ vMaxX vMaxY vMaxZ radius).2) ∨
     ((insideEscapePush cx pointY cz vMinX vMinY vMinZ vMaxX vMaxY vMaxZ radius).1 =
        (⟨0, specEscape pointY vMinY vMaxY radius, 0⟩ : Vec3) ∧
      |specEscape pointY vMinY vMaxY radius| =
        (insideEscapePush cx pointY cz vMinX vMinY vMinZ vMaxX vMaxY vMaxZ radius).2) ∨
     ((insideEscapePush cx pointY cz vMinX vMinY vMinZ vMaxX vMaxY vMaxZ radius).1 =
        (⟨0, 0, specEscape cz vMinZ vMaxZ radius⟩ : Vec3) ∧
      |specEscape cz vMinZ vMaxZ radius| =
        (insideEscapePush cx pointY cz vMinX vMinY vMinZ vMaxX vMaxY vMaxZ radius).2)) ∧
    (∀ (g : Grid) (ix iy iz : Int),
      isVoxelSolid g ix iy iz = true →
      vMinX = g.gridMinX + (ix : ℚ) * g.voxelResolution →
      vMinY = g.gridMinY + (iy : ℚ) * g.voxelResolution →
      vMinZ = g.gridMinZ + (iz : ℚ) * g.voxelResolution →
      vMaxX = vMinX + g.voxelResolution →
      vMaxY = vMinY + g.voxelResolution →
      vMaxZ = vMinZ + g.voxelResolution →
      sphereVoxelStep sqrt g cx pointY cz radius radiusSq ix iy iz =
        some (insideEscapePush cx pointY cz vMinX vMinY vMinZ vMaxX vMaxY vMaxZ radius)) := by
  simp only [closestSqDist] at hin hpen
  have hmain : spherePointContrib sqrt cx pointY cz radius radiusSq
      vMinX vMinY vMinZ vMaxX vMaxY vMaxZ =
      some (insideEscapePush cx pointY cz vMinX vMinY vMinZ vMaxX vMaxY vMaxZ radius) := by
    unfold spherePointContrib
    rw [if_neg (not_le.mpr hpen), if_neg (not_lt.mpr hin)]
  refine ⟨hmain, ?_, ?_, ?_⟩
  · rw [insideEscapePush_eq_axisPick]
    exact axisPick_pen _ _ _
  · rw [insideEscapePush_eq_axisPick]
    exact axisPick_axis _ _ _
  · intro g ix iy iz hsolid h1 h2 h3 h4 h5 h6
    subst h1 h2 h3 h4 h5 h6
    unfold sphereVoxelStep
    rw [if_pos hsolid]
    exact hmain

/-- Witness for `inside_push_along_least_escape`: the unit voxel `[0,1]³`
with the defining point at its center and radius `1/2`. -/
theorem inside_push_along_least_escape_witness :
    spherePointContrib (fun q => q) (1/2) (1/2) (1/2) (1/2) (1/4) 0 0 0 1 1 1 =
      some (insideEscapePush (1/2) (1/2) (1/2) 0 0 0 1 1 1 (1/2)) :=
  (inside_push_along_least_escape (fun q => q) (1/2) (1/2) (1/2) (1/2) (1/4)
    0 0 0 1 1 1 (by with_unfolding_all decide) (by with_unfolding_all decide)).1

/-- Projection of a push against previously recorded constraint normals, as
§4.5 of the spec words it: fold the `dot < 0` subtraction over the list of
recorded normals in order. -/
def specProject (normals : List Vec3) (p : Vec3) : Vec3 :=
  normals.foldl projStep p

/-- Iteration loop written from the claim's words: at most the given number
of iterations; run the resolver at the current position and stop early on
`none`; project the push against every recorded unit constraint normal;
record the normalised pre-projection push as a new constraint normal only
when its length exceeds `PENETRATION_EPSILON` and fewer than 3 normals are
recorded; advance the position by the projected push and accumulate it. -/
def specIterLoop (sqrt : ℚ → ℚ) (resolve : ℚ → ℚ → ℚ → Option Vec3) :
    Nat → Vec3 → Vec3 → Bool → List Vec3 → Vec3 × Bool
  | 0, _, tot, had, _ => (tot, had)
  | rem + 1, pos, tot, had, normals =>
    match resolve pos.x pos.y pos.z with
    | none => (tot, had)
    | some push =>
      let p := specProject normals push
      let len := sqrt (push.x * push.x + push.y * push.y + push.z * push.z)
      let normals2 :=
        if len > PENETRATION_EPSILON ∧ normals.length < 3 then
          normals ++ [⟨push.x * (1 / len), push.y * (1 / len), push.z * (1 / len)⟩]
        else normals
      specIterLoop sqrt resolve rem ⟨pos.x + p.x, pos.y + p.y, pos.z + p.z⟩
        ⟨tot.x + p.x, tot.y + p.y, tot.z + p.z⟩ true normals2

/-- Sphere query written from the claim's words: up to 4 iterations of the
single-deepest-penetration resolver, returning `true` exactly when some
iteration found a penetration and the total accumulated push squared exceeds
`PENETRATION_EPSILON` squared (in which case the total is the out value). -/
def querySphereFromSpec (sqrt : ℚ → ℚ) (c : Collider) (cx cy cz radius : ℚ)
    (out : Vec3) : Bool × Vec3 :=
  if c.grid.nodes.length = 0 then (false, out)
  else
    let s := specIterLoop sqrt
      (fun x y z =>
        if (resolveSphereCore sqrt c.grid x y z radius).1 then
          some (resolveSphereCore sqrt c.grid x y z radius).2
        else none)
      4 ⟨cx, cy, cz⟩ ⟨0, 0, 0⟩ false []
    if s.2 = true ∧ s.1.x * s.1.x + s.1.y * s.1.y + s.1.z * s.1.z >
        PENETRATION_EPSILON * PENETRATION_EPSILON then (true, s.1)
    else (false, out)

/-- Capsule query written from the claim's words, around the capsule
resolver. -/
def queryCapsuleFromSpec (sqrt : ℚ → ℚ) (c : Collider)
    (cx cy cz halfHeight radius : ℚ) (out : Vec3) : Bool × Vec3 :=
  if c.grid.nodes.length = 0 then (false, out)
  else
    let s := specIterLoop sqrt
      (fun x y z =>
        if (resolveCapsuleCore sqrt c.grid x y z halfHeight radius).1 then
          some (resolveCapsuleCore sqrt c.grid x y z halfHeight radius).2
        else none)
      4 ⟨cx, cy, cz⟩ ⟨0, 0, 0⟩ false []
    if s.2 = true ∧ s.1.x * s.1.x + s.1.y * s.1.y + s.1.z * s.1.z >
        PENETRATION_EPSILON * PENETRATION_EPSILON then (true, s.1)
    else (false, out)

/-- Reading a recorded normal after writing the slot `k` gives the written
value. -/
lemma getNormal_setNormal_self (c : Collider) (k : Nat) (hk : k < 3) (v : Vec3) :
    getNormal (setNormal c k v) k = v := by
  rcases k with _ | _ | _ | k
  · rfl
  · rfl
  · rfl
  · omega

/-- Reading a recorded normal below the written slot is unchanged. -/
lemma getNormal_setNormal_lt (c : Collider) (i k : Nat) (hik : i < k) (hk : k < 3)
    (v : Vec3) :
    getNormal (setNormal c k v) i = getNormal c i := by
  rcases k with _ | _ | _ | k
  · omega
  · rcases i with _ | i
    · rfl
    · omega
  · rcases i with _ | _ | i
    · rfl
    · rfl
    · omega
  · omega

/-- Updating the scratch push field leaves the recorded normals untouched. -/
lemma getNormal_setPush (c : Collider) (p : Vec3) (i : Nat) :
    getNormal { c with push := p } i = getNormal c i := by
  rcases i with _ | _ | i <;> rfl

/-- Fold over the indices of a list through an accessor that agrees with the
list is the fold over the list itself. -/
lemma foldl_range_get {α : Type} (f : α → Vec3 → α) :
    ∀ (ns : List Vec3) (get : Nat → Vec3),
      (∀ i, i < ns.length → get i = ns.getD i ⟨0, 0, 0⟩) →
      ∀ (a : α),
        (List.range ns.length).foldl (fun acc i => f acc (get i)) a = ns.foldl f a := by
  intro ns
  induction ns with
  | nil => intro get h a; rfl
  | cons v tail ih =>
    intro get h a
    rw [List.length_cons, List.range_succ_eq_map, List.foldl_cons, List.foldl_map]
    have h0 : get 0 = v := h 0 (by simp)
    rw [h0]
    exact ih (fun i => get (i + 1))
      (fun i hi => by simpa using h (i + 1) (by simpa using Nat.succ_lt_succ hi)) (f a v)

/-- The imperative projection loop equals the spec projection when the
recorded collider normals agree with the list of normals. -/
lemma projectPush_eq_specProject (c : Collider) (ns : List Vec3)
    (h : ∀ i, i < ns.length → getNormal c i = ns.getD i ⟨0, 0, 0⟩) (p : Vec3) :
    projectPush c ns.length p = specProject ns p := by
  unfold projectPush specProject
  exact foldl_range_get projStep ns (getNormal c) h p

/-- Core correspondence behind C3: the imperative wrapper loop (threading the
collider's scratch state) computes the same accumulated push and collision
flag as the spec-worded loop (threading a list of recorded normals), for any
resolver given by a pure core function over the fixed grid. -/
lemma queryIterAux_matches_spec (sqrt : ℚ → ℚ)
    (core : ℚ → ℚ → ℚ → Bool × Vec3) (g0 : Grid)
    (resolve : Collider → ℚ → ℚ → ℚ → Bool × Collider)
    (specResolve : ℚ → ℚ → ℚ → Option Vec3)
    (hres : ∀ c x y z, c.grid = g0 →
      resolve c x y z =
        ((core x y z).1, if (core x y z).1 then { c with push := (core x y z).2 } else c))
    (hspec : ∀ x y z, specResolve x y z =
      if (core x y z).1 then some (core x y z).2 else none) :
    ∀ (rem : Nat) (c : Collider) (x y z tX tY tZ : ℚ) (had : Bool) (ns : List Vec3),
      c.grid = g0 → ns.length ≤ 3 →
      (∀ i, i < ns.length → getNormal c i = ns.getD i ⟨0, 0, 0⟩) →
      ((queryIterAux sqrt resolve rem c x y z tX tY tZ had ns.length).totX,
       (queryIterAux sqrt resolve rem c x y z tX tY tZ had ns.length).totY,
       (queryIterAux sqrt resolve rem c x y z tX tY tZ had ns.length).totZ,
       (queryIterAux sqrt resolve rem c x y z tX tY tZ had ns.length).had) =
      ((specIterLoop sqrt specResolve rem ⟨x, y, z⟩ ⟨tX, tY, tZ⟩ had ns).1.x,
       (specIterLoop sqrt specResolve rem ⟨x, y, z⟩ ⟨tX, tY, tZ⟩ had ns).1.y,
       (specIterLoop sqrt specResolve rem ⟨x, y, z⟩ ⟨tX, tY, tZ⟩ had ns).1.z,
       (specIterLoop sqrt specResolve rem ⟨x, y, z⟩ ⟨tX, tY, tZ⟩ had ns).2) := by
  intro rem
  induction rem with
  | zero => intro c x y z tX tY tZ had ns hc hlen hcorr; rfl
  | succ rem ih =>
    intro c x y z tX tY tZ had ns hc hlen hcorr
    simp only [queryIterAux, specIterLoop, hres c x y z hc, hspec]
    cases hcore : (core x y z).1 with
    | false => simp [hcore]
    | true =>
      simp only [hcore, if_true, Bool.true_eq_false, if_false]
      have hcorr1 : ∀ i, i < ns.length →
          getNormal { c with push := (core x y z).2 } i = ns.getD i ⟨0, 0, 0⟩ :=
        fun i hi => (getNormal_setPush c (core x y z).2 i).trans (hcorr i hi)
      rw [projectPush_eq_specProject _ ns hcorr1]
      by_cases hrec :
          sqrt ((core x y z).2.x * (core x y z).2.x + (core x y z).2.y * (core x y z).2.y +
            (core x y z).2.z * (core x y z).2.z) > PENETRATION_EPSILON ∧ ns.length < 3
      · rw [if_pos hrec, if_pos hrec]
        have hlen2 : (ns ++ [(⟨(core x y z).2.x * (1 / sqrt ((core x y z).2.x * (core x y z).2.x +
            (core x y z).2.y * (core x y z).2.y + (core x y z).2.z * (core x y z).2.z)),
            (core x y z).2.y * (1 / sqrt ((core x y z).2.x * (core x y z).2.x +
            (core x y z).2.y * (core x y z).2.y + (core x y z).2.z * (core x y z).2.z)),
            (core x y z).2.z * (1 / sqrt ((core x y z).2.x * (core x y z).2.x +
            (core x y z).2.y * (core x y z).2.y + (core x y z).2.z * (core x y z).2.z))⟩ :
            Vec3)]).length = ns.length + 1 := by
          simp
        have hih := ih (setNormal { c with push := (core x y z).2 } ns.length
            ⟨(core x y z).2.x * (1 / sqrt ((core x y z).2.x * (core x y z).2.x +
              (core x y z).2.y * (core x y z).2.y + (core x y z).2.z * (core x y z).2.z)),
             (core x y z).2.y * (1 / sqrt ((core x y z).2.x * (core x y z).2.x +
              (core x y z).2.y * (core x y z).2.y + (core x y z).2.z * (core x y z).2.z)),
             (core x y z).2.z * (1 / sqrt ((core x y z).2.x * (core x y z).2.x +
              (core x y z).2.y * (core x y z).2.y + (core x y z).2.z * (core x y z).2.z))⟩)
          (x + (specProject ns (core x y z).2).x) (y + (specProject ns (core x y z).2).y)
          (z + (specProject ns (core x y z).2).z)
          (tX + (specProject ns (core x y z).2).x) (tY + (specProject ns (core x y z).2).y)
          (tZ + (specProject ns (core x y z).2).z) true
          (ns ++ [⟨(core x y z).2.x * (1 / sqrt ((core x y z).2.x * (core x y z).2.x +
              (core x y z).2.y * (core x y z).2.y + (core x y z).2.z * (core x y z).2.z)),
             (core x y z).2.y * (1 / sqrt ((core x y z).2.x * (core x y z).2.x +
              (core x y z).2.y * (core x y z).2.y + (core x y z).2.z * (core x y z).2.z)),
             (core x y z).2.z * (1 / sqrt ((core x y z).2.x * (core x y z).2.x +
              (core x y z).2.y * (core x y z).2.y + (core x y z).2.z * (core x y z).2.z))⟩])
          (by rw [setNormal_grid]; exact hc) (by simp; omega) ?_
        · rw [hlen2] at hih
          exact hih
        · intro i hi
          rw [List.length_append, List.length_singleton] at hi
          rcases Nat.lt_or_ge i ns.length with h | h
          · rw [getNormal_setNormal_lt _ i ns.length h (by omega),
              getNormal_setPush, hcorr i h, List.getD_eq_getElem?_getD,
              List.getD_eq_getElem?_getD, List.getElem?_append_left h]
          · have hieq : i = ns.length := by omega
            subst hieq
            rw [getNormal_setNormal_self _ ns.length (by omega),
              List.getD_eq_getElem?_getD, List.getElem?_append_right (le_refl _)]
            simp
      · rw [if_neg hrec, if_neg hrec]
        exact ih { c with push := (core x y z).2 }
          (x + (specProject ns (core x y z).2).x) (y + (specProject ns (core x y z).2).y)
          (z + (specProject ns (core x y z).2).z)
          (tX + (specProject ns (core x y z).2).x) (tY + (specProject ns (core x y z).2).y)
          (tZ + (specProject ns (core x y z).2).z) true ns hc hlen hcorr1

/-- C3: `querySphere` and `queryCapsule` agree (same boolean result, same out
vector) with the loop written from the claim's words: at most 4 iterations of
the single-deepest-penetration resolver with early stop on no penetration,
sequential projection of the push against previously recorded unit constraint
normals with `dot < 0`, recording of the normalised pre-projection push as a
new constraint only when its length exceeds `PENETRATION_EPSILON` and fewer
than 3 normals are recorded, and a final result of `true` iff some iteration
found a penetration and the squared total accumulated push exceeds
`PENETRATION_EPSILON` squared. -/
theorem query_wrappers_match_spec (sqrt : ℚ → ℚ) (c : Collider)
    (cx cy cz halfHeight radius : ℚ) (out : Vec3) :
    ((querySphere sqrt c cx cy cz radius out).1 =
        (querySphereFromSpec sqrt c cx cy cz radius out).1 ∧
      (querySphere sqrt c cx cy cz radius out).2.1 =
        (querySphereFromSpec sqrt c cx cy cz radius out).2) ∧
    ((queryCapsule sqrt c cx cy cz halfHeight radius out).1 =
        (queryCapsuleFromSpec sqrt c cx cy cz halfHeight radius out).1 ∧
      (queryCapsule sqrt c cx cy cz halfHeight radius out).2.1 =
        (queryCapsuleFromSpec sqrt c cx cy cz halfHeight radius out).2) := by
  constructor
  · by_cases hn : c.grid.nodes.length = 0
    · simp only [querySphere, querySphereFromSpec, if_pos hn]
      exact ⟨trivial, trivial⟩
    · have hm := queryIterAux_matches_spec sqrt
        (fun x y z => resolveSphereCore sqrt c.grid x y z radius) c.grid
        (fun c x y z => resolveDeepestPenetration sqrt c x y z radius)
        (fun x y z =>
          if (resolveSphereCore sqrt c.grid x y z radius).1 then
            some (resolveSphereCore sqrt c.grid x y z radius).2
          else none)
        (by intro c' x y z hg; simp only [resolveDeepestPenetration, hg])
        (fun x y z => rfl)
        4 c cx cy cz 0 0 0 false [] rfl (by simp) (by intro i hi; simp at hi)
      simp only [List.length_nil] at hm
      have hx := congrArg (fun t : ℚ × ℚ × ℚ × Bool => t.1) hm
      have hy := congrArg (fun t : ℚ × ℚ × ℚ × Bool => t.2.1) hm
      have hz := congrArg (fun t : ℚ × ℚ × ℚ × Bool => t.2.2.1) hm
      have hh := congrArg (fun t : ℚ × ℚ × ℚ × Bool => t.2.2.2) hm
      dsimp only at hx hy hz hh
      simp only [querySphere, querySphereFromSpec, if_neg hn, hx, hy, hz, hh]
      split
      · exact ⟨rfl, rfl⟩
      · exact ⟨rfl, rfl⟩
  · by_cases hn : c.grid.nodes.length = 0
    · simp only [queryCapsule, queryCapsuleFromSpec, if_pos hn]
      exact ⟨trivial, trivial⟩
    · have hm := queryIterAux_matches_spec sqrt
        (fun x y z => resolveCapsuleCore sqrt c.grid x y z halfHeight radius) c.grid
        (fun c x y z => resolveDeepestPenetrationCapsule sqrt c x y z halfHeight radius)
        (fun x y z =>
          if (resolveCapsuleCore sqrt c.grid x y z halfHeight radius).1 then
            some (resolveCapsuleCore sqrt c.grid x y z halfHeight radius).2
          else none)
        (by intro c' x y z hg; simp only [resolveDeepestPenetrationCapsule, hg])
        (fun x y z => rfl)
        4 c cx cy cz 0 0 0 false [] rfl (by simp) (by intro i hi; simp at hi)
      simp only [List.length_nil] at hm
      have hx := congrArg (fun t : ℚ × ℚ × ℚ × Bool => t.1) hm
      have hy := congrArg (fun t : ℚ × ℚ × ℚ × Bool => t.2.1) hm
      have hz := congrArg (fun t : ℚ × ℚ × ℚ × Bool => t.2.2.1) hm
      have hh := congrArg (fun t : ℚ × ℚ × ℚ × Bool => t.2.2.2) hm
      dsimp only at hx hy hz hh
      simp only [queryCapsule, queryCapsuleFromSpec, if_neg hn, hx, hy, hz, hh]
      split
      · exact ⟨rfl, rfl⟩
      · exact ⟨rfl, rfl⟩

end SupersplatVoxel
